import Mathlib

/-!
# app-saneamento — balance reconciliation and update pre-flight, verified

A shallow embedding of the core logic of the `app-saneamento` repository:
the edit-product modal's pre-flight validation and payload construction
(`frontend/components/edit-product-modal.tsx`), the results page's
statistics aggregation (`frontend/app/results/results-content.tsx`), the
documented balance-comparison query, and — where the FastAPI backend is
not part of the sources — models of the filter application, pagination
assembler and update orchestrator built from the specification's words
and the repository's own field documentation and NCM test report.

JavaScript numbers are modelled as rationals (`ℚ`); database
`NUMBER(15,3)` quantities as integers counting thousandths (exact
3-decimal fixed point); `NaN` as `Option.none`; JS `undefined` in
payloads as `Option.none`.
-/

namespace Saneamento

/-- Material status `'A' | 'I'` (`frontend/types/index.ts`, `StatusSaldo`). -/
inductive StatusSaldo where
  | A
  | I
deriving DecidableEq

/-- JavaScript `String.prototype.trim`: strip leading and trailing whitespace. -/
def jsTrim (s : String) : String :=
  ⟨((s.data.dropWhile Char.isWhitespace).reverse.dropWhile Char.isWhitespace).reverse⟩

/-- Numeric value of a list of decimal digits, most significant first. -/
def digitsVal (l : List Char) : Nat :=
  l.foldl (fun a c => 10 * a + (c.toNat - '0'.toNat)) 0

/-- The syntactic part of JavaScript `parseFloat`: sign, value of the
integer digits, value of the fraction digits and their count, read from
the longest numeric prefix as `parseFloat` does; `none` models `NaN`. -/
def parseNumParts (s : String) : Option (Bool × ℕ × ℕ × ℕ) :=
  let cs := s.data
  let neg : Bool := cs.head? == some '-'
  let rest := if cs.head? == some '-' || cs.head? == some '+' then cs.tail else cs
  let intDigits := rest.takeWhile Char.isDigit
  let rest2 := rest.dropWhile Char.isDigit
  let fracDigits :=
    if rest2.head? == some '.' then rest2.tail.takeWhile Char.isDigit else []
  if intDigits = [] ∧ fracDigits = [] then none
  else some (neg, digitsVal intDigits, digitsVal fracDigits, fracDigits.length)

/-- The numeric value of the parsed components. -/
def partsToRat : Bool × ℕ × ℕ × ℕ → ℚ
  | (neg, ip, fv, fl) => (if neg then -1 else 1) * ((ip : ℚ) + (fv : ℚ) / (10 : ℚ) ^ fl)

/-- JavaScript `parseFloat`, on the sign/digits/point shapes the form's
number inputs produce (no exponent forms); `none` models `NaN`. -/
def parseFloat (s : String) : Option ℚ :=
  (parseNumParts s).map partsToRat

/-- JavaScript `parseInt` on the dropdowns' numeric code strings;
`none` models `NaN` (unreachable through the UI's dropdown values). -/
def parseIntJs (s : String) : Option ℤ :=
  let cs := s.data
  let sign : ℤ := if cs.head? = some '-' then -1 else 1
  let rest := if cs.head? = some '-' ∨ cs.head? = some '+' then cs.tail else cs
  let ds := rest.takeWhile Char.isDigit
  if ds = [] then none else some (sign * (digitsVal ds : ℤ))

/-- One row of the comparison result as the frontend receives it
(`frontend/types/index.ts`, `SaldoItem`).  `empresa` is optional because
the modal guards `product.empresa?.toString() || ''`. -/
structure SaldoItem where
  empresa : Option ℤ
  grupo : Option ℤ
  subgrupo : Option ℤ
  material : String
  descricao : String
  status : StatusSaldo
  saldo_siagri : ℚ
  saldo_cigam : ℚ
  diferenca_saldo : ℚ
  tipo_item : Option String
  tipo_material : Option String
  codigo_grupo : Option ℤ
  codigo_subgrupo : Option ℤ
  unidade : Option String
  ncm_cla_fiscal : Option String
deriving DecidableEq

/-- The edit modal's form state (`edit-product-modal.tsx`, `formData`). -/
structure FormData where
  saldo_siagri : String
  saldo_cigam : String
  observacoes : String
  desc_psv : String
  unid_psv : String
  situ_psv : StatusSaldo
  codi_cfp : String
  codi_gpr : String
  codi_sbg : String
  codi_tip : String
  prse_psv : String
deriving DecidableEq

/-- The update payload (`frontend/types/index.ts`, `AtualizarMaterial`). -/
structure AtualizarMaterial where
  material_id : String
  empresa_id : String
  novo_saldo_siagri : ℚ
  novo_saldo_cigam : ℚ
  observacoes : Option String
  desc_psv : String
  unid_psv : String
  situ_psv : StatusSaldo
  clas_psv : Option String
  codi_cfp : Option String
  codi_gpr : Option ℤ
  codi_sbg : Option ℤ
  codi_tip : Option ℤ
  prse_psv : Option String
deriving DecidableEq

/-- The modal's real-time NCM validator (`edit-product-modal.tsx`,
`validateNCM`): required, exactly 8 characters, digits only. -/
def validateNCM (ncm : String) : String :=
  if ncm = "" then "NCM é obrigatório"
  else if ncm.length ≠ 8 then "NCM deve ter exatamente 8 caracteres"
  else if !(ncm.data.all Char.isDigit) then "NCM deve conter apenas números"
  else ""

/-- `isNaN(n) || n < 0`, the rejection test `handleSubmit` applies to each
parsed balance (`edit-product-modal.tsx` lines 193 and 198). -/
def saldoInvalido (s : String) : Bool :=
  match parseFloat s with
  | none => true
  | some q => decide (q < 0)

/-- The NCM pre-flight condition of `handleSubmit` line 216:
`formData.codi_cfp.trim() && formData.codi_cfp.trim().length !== 8`. -/
def ncmLengthRejects (s : String) : Bool :=
  (jsTrim s != "") && (jsTrim s).length != 8

/-- The `updateData` payload built by `handleSubmit`
(`edit-product-modal.tsx` lines 222-238).  `clas_psv` is the literal
`undefined` of line 232 ("Campo não editável pelo usuário"). -/
def buildUpdateData (product : SaldoItem) (f : FormData) : AtualizarMaterial :=
  { material_id := product.material
    empresa_id := (product.empresa.map toString).getD ""
    novo_saldo_siagri := (parseFloat f.saldo_siagri).getD 0
    novo_saldo_cigam := (parseFloat f.saldo_cigam).getD 0
    observacoes := if jsTrim f.observacoes = "" then none else some (jsTrim f.observacoes)
    desc_psv := jsTrim f.desc_psv
    unid_psv := jsTrim f.unid_psv
    situ_psv := f.situ_psv
    clas_psv := none
    codi_cfp := if jsTrim f.codi_cfp = "" then none else some (jsTrim f.codi_cfp)
    codi_gpr := if f.codi_gpr = "" then none else parseIntJs f.codi_gpr
    codi_sbg := if f.codi_sbg = "" then none else parseIntJs f.codi_sbg
    codi_tip := if f.codi_tip = "" then none else parseIntJs f.codi_tip
    prse_psv := if f.prse_psv = "" then none else some f.prse_psv }

/-- `handleSubmit` (`edit-product-modal.tsx` lines 184-241): the pre-flight
checks in source order, then the `updateData` payload passed to
`updateMutation.mutate`.  `Except.error` is the `toast.error` early return:
the mutation is not invoked and no write is issued. -/
def handleSubmit (product : SaldoItem) (f : FormData) : Except String AtualizarMaterial :=
  if saldoInvalido f.saldo_siagri then
    Except.error "Saldo SIAGRI deve ser um número válido e não negativo"
  else if saldoInvalido f.saldo_cigam then
    Except.error "Saldo CIGAM deve ser um número válido e não negativo"
  else if jsTrim f.desc_psv = "" then
    Except.error "Descrição é obrigatória"
  else if jsTrim f.unid_psv = "" then
    Except.error "Unidade é obrigatória"
  else if ncmLengthRejects f.codi_cfp then
    Except.error "NCM deve ter exatamente 8 caracteres"
  else
    Except.ok (buildUpdateData product f)

/-- `calcularNovaDiferenca` (`edit-product-modal.tsx` lines 246-250):
`(parseFloat(saldo_siagri) || 0) - (parseFloat(saldo_cigam) || 0)`. -/
def calcularNovaDiferenca (f : FormData) : ℚ :=
  (parseFloat f.saldo_siagri).getD 0 - (parseFloat f.saldo_cigam).getD 0

/-- JavaScript strict inequality of a parsed string against a number:
`parseFloat s !== q` (`NaN !== q` is true). -/
def jsNumNe (s : String) (q : ℚ) : Bool :=
  match parseFloat s with
  | none => true
  | some v => decide (v ≠ q)

/-- `houveMudanca` (`edit-product-modal.tsx` lines 256-262): whether any
monitored field of the form differs from the product's current value. -/
def houveMudanca (p : SaldoItem) (f : FormData) : Bool :=
  jsNumNe f.saldo_siagri p.saldo_siagri ||
  jsNumNe f.saldo_cigam p.saldo_cigam ||
  (f.desc_psv != p.descricao) ||
  (f.unid_psv != p.unidade.getD "") ||
  (f.situ_psv != p.status) ||
  (f.codi_cfp != p.ncm_cla_fiscal.getD "")

/-- The submit button's enabled state (`edit-product-modal.tsx` line 541):
`!(updateMutation.isPending || !houveMudanca)`. -/
def submitEnabled (pending : Bool) (p : SaldoItem) (f : FormData) : Bool :=
  !pending && houveMudanca p f

/-- The monitored form fields agree between two form states (the fields
`houveMudanca` reads: both balances, description, unit, status, NCM). -/
def monitoredEq (f g : FormData) : Prop :=
  f.saldo_siagri = g.saldo_siagri ∧ f.saldo_cigam = g.saldo_cigam ∧
  f.desc_psv = g.desc_psv ∧ f.unid_psv = g.unid_psv ∧
  f.situ_psv = g.situ_psv ∧ f.codi_cfp = g.codi_cfp

/-- Every monitored field of the form equals the product's current value. -/
def monitoredUnchanged (p : SaldoItem) (f : FormData) : Prop :=
  parseFloat f.saldo_siagri = some p.saldo_siagri ∧
  parseFloat f.saldo_cigam = some p.saldo_cigam ∧
  f.desc_psv = p.descricao ∧
  f.unid_psv = p.unidade.getD "" ∧
  f.situ_psv = p.status ∧
  f.codi_cfp = p.ncm_cla_fiscal.getD ""

/-- The page statistics record (`results-content.tsx` line 296). -/
structure ResultStats where
  total : ℕ
  divergentes : ℕ
  apenas_siagri : ℕ
  apenas_cigam : ℕ
  ok : ℕ
deriving DecidableEq

/-- The `stats` memo (`results-content.tsx` lines 285-297): counts over the
received items.  `divergentes` counts `item.status === 'I'`, `ok` counts
`'A'`; the only-in counts test the numeric balances. -/
def computeStats (items : List SaldoItem) : ResultStats :=
  { total := items.length
    divergentes := (items.filter (fun i => i.status == StatusSaldo.I)).length
    ok := (items.filter (fun i => i.status == StatusSaldo.A)).length
    apenas_siagri :=
      (items.filter (fun i => decide (0 < i.saldo_siagri) && decide (i.saldo_cigam = 0))).length
    apenas_cigam :=
      (items.filter (fun i => decide (0 < i.saldo_cigam) && decide (i.saldo_siagri = 0))).length }

/-- One row produced by the documented SIAGRI balance query (field
documentation §8): balances are `NUMBER(15,3)`, modelled as integer
counts of thousandths (exact 3-decimal fixed point). -/
structure SiagriRow where
  empresa : ℤ
  grupo : ℤ
  material : String
  descricao : String
  status : StatusSaldo
  saldo : ℤ
deriving DecidableEq

/-- One classified row of the balance comparison. -/
structure ComparisonRow where
  empresa : ℤ
  grupo : ℤ
  material : String
  descricao : String
  status : StatusSaldo
  saldo_siagri : ℤ
  saldo_cigam : ℤ
  diferenca_saldo : ℤ
deriving DecidableEq

/-- The documented comparison query (field documentation §8, "Query de
Comparação de Saldos"): a SIAGRI row is joined with the CIGAM balance for
the same material; `SALDO_CIGAM` is `COALESCE(S2.SALDO, 0)` and
`DIFERENCA_SALDO` is `S1.SALDO - COALESCE(S2.SALDO, 0)`.  `none` for the
CIGAM side models the LEFT JOIN finding no row. -/
def comparisonRow (s : SiagriRow) (cigam : Option ℤ) : ComparisonRow :=
  { empresa := s.empresa
    grupo := s.grupo
    material := s.material
    descricao := s.descricao
    status := s.status
    saldo_siagri := s.saldo
    saldo_cigam := cigam.getD 0
    diferenca_saldo := s.saldo - cigam.getD 0 }

/-- The three boolean filter flags (`frontend/types/index.ts`,
`FiltrosEstoque` / the form's `filtersSchema`). -/
structure FiltrosFlags where
  apenas_divergentes : Bool
  saldos_positivos_siagri : Bool
  saldos_positivos_cigam : Bool
deriving DecidableEq

/-- Modelled from the spec: the backend application of the three filter
flags (the `saldos` endpoint of the FastAPI backend, which is not among
the sources; only its form schema, types and e2e tests are).  Spec §4.3:
"Filter predicates are applied as a conjunction (AND) after
classification: `divergent_only` keeps rows where `diff != 0`;
`positive_in_A` keeps rows where quantity-in-A `> 0`; `positive_in_B`
keeps rows where quantity-in-B `> 0`", and an absent flag imposes no
constraint. -/
def applyFlags (fl : FiltrosFlags) (rows : List ComparisonRow) : List ComparisonRow :=
  rows.filter (fun r =>
    (!fl.apenas_divergentes || decide (r.diferenca_saldo ≠ 0)) &&
    (!fl.saldos_positivos_siagri || decide (0 < r.saldo_siagri)) &&
    (!fl.saldos_positivos_cigam || decide (0 < r.saldo_cigam)))

/-- The paginated response shape (`frontend/types/index.ts`,
`SaldoResponse`). -/
structure SaldoResponse where
  items : List ComparisonRow
  total : ℕ
  page : ℕ
  size : ℕ
  pages : ℕ
  has_next : Bool
  has_prev : Bool
deriving DecidableEq

/-- Modelled from the spec: the Pagination Assembler (backend, not among
the sources).  Spec §4.4: it slices the classified, filtered, ordered
sequence by a 1-based page index and a page size, and "must compute
`total` from the *filtered* set, not the unfiltered union". -/
def paginate (rows : List ComparisonRow) (page size : ℕ) : SaldoResponse :=
  let total := rows.length
  let pages := (total + size - 1) / size
  { items := (rows.drop ((page - 1) * size)).take size
    total := total
    page := page
    size := size
    pages := pages
    has_next := decide (page < pages)
    has_prev := decide (1 < page) }

/-- The frontend's manual page count (`results-content.tsx` line 276):
`Math.ceil(saldosData.total / pagination.pageSize)`. -/
def pageCount (total size : ℕ) : ℕ := (total + size - 1) / size

/-- The backend update payload (field documentation §1,
`MaterialUpdateSchema`). -/
structure MaterialUpdate where
  desc_psv : String
  situ_psv : StatusSaldo
  unid_psv : String
  clas_psv : Option String
  codi_cfp : Option String
  codi_gpr : Option ℤ
  codi_sbg : Option ℤ
  codi_tip : Option ℤ
  prse_psv : Option String
deriving DecidableEq

/-- The frontend payload as the backend schema receives it. -/
def toMaterialUpdate (d : AtualizarMaterial) : MaterialUpdate :=
  { desc_psv := d.desc_psv
    situ_psv := d.situ_psv
    unid_psv := d.unid_psv
    clas_psv := d.clas_psv
    codi_cfp := d.codi_cfp
    codi_gpr := d.codi_gpr
    codi_sbg := d.codi_sbg
    codi_tip := d.codi_tip
    prse_psv := d.prse_psv }

/-- Result of one UPDATE statement against Oracle: the row update applies,
or the database rejects an oversized bound value at write time
(`ORA-12899: value too large for column`). -/
inductive WriteResult where
  | committed
  | ora12899 (column : String) (actual maximum : ℕ)
deriving DecidableEq

/-- Width of `JUPARANA.PRODSERV.CLAS_PSV`: `CHAR(1)` (field documentation
§3; NCM test report, "Tipo: CHAR, Tamanho: 1"). -/
def CLAS_PSV_WIDTH : ℕ := 1

/-- Modelled from the spec: the first ordered write of the backend update
orchestrator (`saldos.py`, not among the sources).  The NCM test report
documents the issued statement `UPDATE JUPARANA.PRODSERV SET DESC_PSV =
:desc_psv, SITU_PSV = :situ_psv, CLAS_PSV = :clas_psv WHERE CODI_PSV =
:codigo` and its outcome on an oversized value: `ORA-12899: value too
large for column "JUPARANA"."PRODSERV"."CLAS_PSV" (actual: 8, maximum:
1)` — the `CHAR(1)` column rejects the bound value only at the database
layer. -/
def prodservWrite (data : MaterialUpdate) : WriteResult :=
  match data.clas_psv with
  | none => WriteResult.committed
  | some v =>
      if CLAS_PSV_WIDTH < v.length then WriteResult.ora12899 "CLAS_PSV" v.length CLAS_PSV_WIDTH
      else WriteResult.committed

/-- Outcome of one `PUT /material/{codigo}` call, modelled up to its first
write: a pre-flight `ValidationError` (nothing written), or the number of
writes issued and the first write's database result. -/
structure UpdateOutcome where
  preflight : Option String
  writesIssued : ℕ
  firstResult : Option WriteResult
deriving DecidableEq

/-- Modelled from the spec: the backend update orchestrator (`saldos.py`,
not among the sources).  Spec §4.6 describes the width pre-flight as "the
validation step the source system was missing, which let an 8-character
value be sent to a 1-character column and fail only at the database
layer": the endpoint performs no width pre-flight on `clas_psv` and
issues the PRODSERV write directly. -/
def updateMaterialEndpoint (data : MaterialUpdate) : UpdateOutcome :=
  { preflight := none
    writesIssued := 1
    firstResult := some (prodservWrite data) }

/-- A row of `JUPARANA.PRODSERV` (field documentation §3), restricted to
the columns the documented UPDATE statement touches or matches on. -/
structure ProdservRow where
  codi_psv : String
  desc_psv : String
  situ_psv : StatusSaldo
  prse_psv : Option String
  clas_psv : Option String
deriving DecidableEq

/-- The documented `UPDATE JUPARANA.PRODSERV` statement applied to one
row (NCM test report): `DESC_PSV`, `SITU_PSV` and `CLAS_PSV` are assigned
from the bound parameters whenever `CODI_PSV` matches `:codigo`. -/
def prodservUpdateRow (codigo : String) (data : MaterialUpdate) (row : ProdservRow) : ProdservRow :=
  if row.codi_psv = codigo then
    { row with desc_psv := data.desc_psv, situ_psv := data.situ_psv, clas_psv := data.clas_psv }
  else row


/-! ## Concrete instances used by witnesses and counterexamples -/

/-- A concrete product row as the results page supplies it to the modal. -/
def sampleProduct : SaldoItem :=
  { empresa := some 1, grupo := some 80, subgrupo := none, material := "8309001811",
    descricao := "19M7358 PARAFUSO SEXTAVADO", status := StatusSaldo.A,
    saldo_siagri := 100, saldo_cigam := 95, diferenca_saldo := 5,
    tipo_item := none, tipo_material := some "U",
    codigo_grupo := some 80, codigo_subgrupo := none, unidade := some "UN",
    ncm_cla_fiscal := some "73181500" }

/-- A concrete form state that passes every pre-flight check. -/
def sampleForm : FormData :=
  { saldo_siagri := "10", saldo_cigam := "5", observacoes := "",
    desc_psv := "19M7358 PARAFUSO SEXTAVADO", unid_psv := "UN", situ_psv := StatusSaldo.A,
    codi_cfp := "73181600", codi_gpr := "80", codi_sbg := "", codi_tip := "",
    prse_psv := "U" }

/-- A form whose monitored fields restate `sampleProduct`'s current state;
its observations differ from the empty default. -/
def unchangedForm : FormData :=
  { saldo_siagri := "100", saldo_cigam := "95", observacoes := "apenas nota",
    desc_psv := "19M7358 PARAFUSO SEXTAVADO", unid_psv := "UN", situ_psv := StatusSaldo.A,
    codi_cfp := "73181500", codi_gpr := "", codi_sbg := "", codi_tip := "",
    prse_psv := "" }

/-- A single Active page row whose balances diverge (100 vs 95). -/
def divergentActiveItem : SaldoItem :=
  { empresa := some 1, grupo := some 80, subgrupo := none,
    material := "8309001811", descricao := "19M7358 PARAFUSO SEXTAVADO",
    status := StatusSaldo.A, saldo_siagri := 100, saldo_cigam := 95,
    diferenca_saldo := 5, tipo_item := none, tipo_material := none,
    codigo_grupo := none, codigo_subgrupo := none, unidade := none,
    ncm_cla_fiscal := none }

/-- The update payload of the NCM test report of 18/09/2025: product
8309001811, NCM changed from 73181500 to 73181600, with the 8-character
NCM also bound to the `clas_psv` parameter of the PRODSERV update. -/
def ncmTestUpdate : MaterialUpdate :=
  { desc_psv := "19M7358 PARAFUSO SEXTAVADO", situ_psv := StatusSaldo.A, unid_psv := "UN",
    clas_psv := some "73181600", codi_cfp := some "73181600",
    codi_gpr := none, codi_sbg := none, codi_tip := none, prse_psv := none }

/-- A PRODSERV row for product 8309001811 whose 1-character
classification currently holds `'P'`. -/
def prodservRow8309 : ProdservRow :=
  { codi_psv := "8309001811", desc_psv := "19M7358 PARAFUSO SEXTAVADO",
    situ_psv := StatusSaldo.A, prse_psv := some "U", clas_psv := some "P" }

/-- A product row for the C8 analysis. -/
def c8Product : SaldoItem :=
  { empresa := some 1, grupo := some 80, subgrupo := none, material := "8309001811",
    descricao := "19M7358 PARAFUSO SEXTAVADO", status := StatusSaldo.A,
    saldo_siagri := 100, saldo_cigam := 95, diferenca_saldo := 5,
    tipo_item := none, tipo_material := some "U",
    codigo_grupo := some 80, codigo_subgrupo := none, unidade := some "UN",
    ncm_cla_fiscal := some "73181500" }

/-- A form for the C8 analysis: the operator edits the description and
balances; the form supplies no product classification. -/
def c8Form : FormData :=
  { saldo_siagri := "10", saldo_cigam := "5", observacoes := "ajuste",
    desc_psv := "19M7358 PARAFUSO SEXT", unid_psv := "UN", situ_psv := StatusSaldo.A,
    codi_cfp := "73181500", codi_gpr := "80", codi_sbg := "", codi_tip := "",
    prse_psv := "U" }

/-! ## Lemmas and the claims -/


/-! ## Evaluation helpers -/

lemma parseFloat_nat (s : String) (i : ℕ) (h : parseNumParts s = some (false, i, 0, 0)) :
    parseFloat s = some (i : ℚ) := by
  rw [parseFloat, h]
  simp [partsToRat]

lemma parseFloat_neg_nat (s : String) (i : ℕ) (h : parseNumParts s = some (true, i, 0, 0)) :
    parseFloat s = some (-(i : ℚ)) := by
  rw [parseFloat, h]
  simp [partsToRat]

lemma saldoInvalido_eq_false (s : String) (i : ℕ) (h : parseNumParts s = some (false, i, 0, 0)) :
    saldoInvalido s = false := by
  unfold saldoInvalido
  rw [parseFloat_nat s i h]
  simp only [decide_eq_false_iff_not, not_lt]
  exact Nat.cast_nonneg i

/-- Any of the five pre-flight rejections stops `handleSubmit` before the
mutation: the result carries no payload. -/
lemma handleSubmit_toOption_none (p : SaldoItem) (f : FormData)
    (h : saldoInvalido f.saldo_siagri = true ∨ saldoInvalido f.saldo_cigam = true ∨
      jsTrim f.desc_psv = "" ∨ jsTrim f.unid_psv = "" ∨ ncmLengthRejects f.codi_cfp = true) :
    (handleSubmit p f).toOption = none := by
  by_cases h1 : saldoInvalido f.saldo_siagri = true
  · simp [handleSubmit, h1, Except.toOption]
  · rw [Bool.not_eq_true] at h1
    by_cases h2 : saldoInvalido f.saldo_cigam = true
    · simp [handleSubmit, h1, h2, Except.toOption]
    · rw [Bool.not_eq_true] at h2
      by_cases h3 : jsTrim f.desc_psv = ""
      · simp [handleSubmit, h1, h2, h3, Except.toOption]
      · by_cases h4 : jsTrim f.unid_psv = ""
        · simp [handleSubmit, h1, h2, h3, h4, Except.toOption]
        · by_cases h5 : ncmLengthRejects f.codi_cfp = true
          · simp [handleSubmit, h1, h2, h3, h4, h5, Except.toOption]
          · rw [Bool.not_eq_true] at h5
            rcases h with h | h | h | h | h
            · simp [h] at h1
            · simp [h] at h2
            · exact absurd h h3
            · exact absurd h h4
            · simp [h] at h5

/-- When every pre-flight check passes, `handleSubmit` hands the built
payload to the mutation. -/
lemma handleSubmit_ok_of (p : SaldoItem) (f : FormData)
    (h1 : saldoInvalido f.saldo_siagri = false) (h2 : saldoInvalido f.saldo_cigam = false)
    (h3 : jsTrim f.desc_psv ≠ "") (h4 : jsTrim f.unid_psv ≠ "")
    (h5 : ncmLengthRejects f.codi_cfp = false) :
    handleSubmit p f = Except.ok (buildUpdateData p f) := by
  simp [handleSubmit, h1, h2, h3, h4, h5]

/-- A successful `handleSubmit` returns exactly the built payload. -/
lemma handleSubmit_ok (p : SaldoItem) (f : FormData) (d : AtualizarMaterial)
    (h : handleSubmit p f = Except.ok d) : d = buildUpdateData p f := by
  unfold handleSubmit at h
  split_ifs at h
  all_goals simp_all

/-- Membership in the flag-filtered set: the three predicates act as a
conjunction, and an unset flag imposes no constraint. -/
lemma mem_applyFlags (fl : FiltrosFlags) (rows : List ComparisonRow) (r : ComparisonRow) :
    r ∈ applyFlags fl rows ↔ r ∈ rows ∧
      (fl.apenas_divergentes = true → r.diferenca_saldo ≠ 0) ∧
      (fl.saldos_positivos_siagri = true → 0 < r.saldo_siagri) ∧
      (fl.saldos_positivos_cigam = true → 0 < r.saldo_cigam) := by
  rcases fl with ⟨a, b, c⟩
  simp only [applyFlags, List.mem_filter, Bool.and_eq_true, Bool.or_eq_true,
    Bool.not_eq_true', decide_eq_true_eq]
  cases a <;> cases b <;> cases c <;> simp [and_assoc]

/-- Filtering on the two status values partitions the item list. -/
lemma filter_status_partition (items : List SaldoItem) :
    (items.filter (fun i => i.status == StatusSaldo.I)).length
      + (items.filter (fun i => i.status == StatusSaldo.A)).length = items.length := by
  induction items with
  | nil => rfl
  | cons a t ih =>
      cases h : a.status <;> simp [List.filter_cons, h] <;> omega


/-! ## Shared concrete inputs for witnesses and counterexamples -/

lemma sampleForm_ok :
    handleSubmit sampleProduct sampleForm = Except.ok (buildUpdateData sampleProduct sampleForm) := by
  refine handleSubmit_ok_of _ _ ?_ ?_ ?_ ?_ ?_
  · exact saldoInvalido_eq_false _ 10 (by decide)
  · exact saldoInvalido_eq_false _ 5 (by decide)
  · decide
  · decide
  · decide

/-! ## The claims -/

/-- **C3**: in the documented comparison query the reported difference is
recomputed as `SALDO_SIAGRI - COALESCE(SALDO_CIGAM, 0)` (exact, in
3-decimal fixed point), with a missing CIGAM side coalesced to `0`; and
the modal's recomputed difference equals the difference of the two
quantities actually placed in the update payload — it is never supplied
independently of its inputs. -/
theorem c3_difference_recomputed (s : SiagriRow) (c : Option ℤ) (p : SaldoItem) (f : FormData)
    (d : AtualizarMaterial) :
    ((comparisonRow s c).diferenca_saldo
        = (comparisonRow s c).saldo_siagri - (comparisonRow s c).saldo_cigam)
    ∧ (c = none → (comparisonRow s c).saldo_cigam = 0)
    ∧ (handleSubmit p f = Except.ok d →
        calcularNovaDiferenca f = d.novo_saldo_siagri - d.novo_saldo_cigam) := by
  refine ⟨rfl, ?_, ?_⟩
  · rintro rfl
    rfl
  · intro h
    rw [handleSubmit_ok p f d h]
    rfl

/-- **C3 witness**: at a concrete missing CIGAM row the coalesced side is
`0`, and at a concrete accepted form the displayed new difference equals
the payload's quantity difference. -/
theorem c3_difference_recomputed_witness :
    (comparisonRow
        { empresa := 1, grupo := 80, material := "8309001811",
          descricao := "19M7358 PARAFUSO SEXTAVADO", status := StatusSaldo.A,
          saldo := 10000 } none).saldo_cigam = 0
    ∧ calcularNovaDiferenca sampleForm
        = (buildUpdateData sampleProduct sampleForm).novo_saldo_siagri
          - (buildUpdateData sampleProduct sampleForm).novo_saldo_cigam :=
  ⟨(c3_difference_recomputed
      { empresa := 1, grupo := 80, material := "8309001811",
        descricao := "19M7358 PARAFUSO SEXTAVADO", status := StatusSaldo.A,
        saldo := 10000 } none sampleProduct sampleForm
      (buildUpdateData sampleProduct sampleForm)).2.1 rfl,
   (c3_difference_recomputed
      { empresa := 1, grupo := 80, material := "8309001811",
        descricao := "19M7358 PARAFUSO SEXTAVADO", status := StatusSaldo.A,
        saldo := 10000 } none sampleProduct sampleForm
      (buildUpdateData sampleProduct sampleForm)).2.2 sampleForm_ok⟩

/-- **C6**: a supplied (non-empty) NCM whose length is not 8 fails
pre-flight — the mutation is never invoked — while an 8-character NCM
passes the length check of line 216. -/
theorem c6_ncm_length_preflight (p : SaldoItem) (f : FormData) :
    (jsTrim f.codi_cfp ≠ "" → (jsTrim f.codi_cfp).length ≠ 8 →
      (handleSubmit p f).toOption = none)
    ∧ ((jsTrim f.codi_cfp).length = 8 → ncmLengthRejects f.codi_cfp = false) := by
  constructor
  · intro hne hlen
    apply handleSubmit_toOption_none
    refine Or.inr (Or.inr (Or.inr (Or.inr ?_)))
    simp [ncmLengthRejects, hne, hlen]
  · intro hlen
    simp [ncmLengthRejects, hlen]

/-- **C6 witness**: a 9-character NCM is rejected with no mutation; the
8-character NCM `"73181600"` passes the length check. -/
theorem c6_ncm_length_preflight_witness :
    (handleSubmit sampleProduct
      { sampleForm with codi_cfp := "123456789" }).toOption = none
    ∧ ncmLengthRejects sampleForm.codi_cfp = false :=
  ⟨(c6_ncm_length_preflight sampleProduct _).1 (by decide) (by decide),
   (c6_ncm_length_preflight sampleProduct sampleForm).2 (by decide)⟩

/-- **C7**: an update request whose description or unit is absent or blank
fails pre-flight: the mutation is never invoked, so none of the three
writes is attempted and the external systems are untouched. -/
theorem c7_required_fields_preflight (p : SaldoItem) (f : FormData)
    (h : jsTrim f.desc_psv = "" ∨ jsTrim f.unid_psv = "") :
    (handleSubmit p f).toOption = none :=
  handleSubmit_toOption_none p f (Or.inr (Or.inr (by tauto)))

/-- **C7 witness**: a concrete form with a blank description is rejected. -/
theorem c7_required_fields_preflight_witness :
    (handleSubmit sampleProduct { sampleForm with desc_psv := "   " }).toOption = none :=
  c7_required_fields_preflight _ _ (Or.inl (by decide))

/-- **C10**: each new balance must parse as a number and be non-negative;
a non-numeric or negative balance is rejected before the update mutation
is invoked, so no write occurs. -/
theorem c10_nonnegative_balances_preflight (p : SaldoItem) (f : FormData)
    (h : parseFloat f.saldo_siagri = none
      ∨ (∃ q, parseFloat f.saldo_siagri = some q ∧ q < 0)
      ∨ parseFloat f.saldo_cigam = none
      ∨ (∃ q, parseFloat f.saldo_cigam = some q ∧ q < 0)) :
    (handleSubmit p f).toOption = none := by
  apply handleSubmit_toOption_none
  rcases h with h | ⟨q, hq, hneg⟩ | h | ⟨q, hq, hneg⟩
  · exact Or.inl (by simp [saldoInvalido, h])
  · exact Or.inl (by simp [saldoInvalido, hq, hneg])
  · exact Or.inr (Or.inl (by simp [saldoInvalido, h]))
  · exact Or.inr (Or.inl (by simp [saldoInvalido, hq, hneg]))

/-- **C10 witness**: a concrete negative CIGAM balance is rejected. -/
theorem c10_nonnegative_balances_preflight_witness :
    (handleSubmit sampleProduct { sampleForm with saldo_cigam := "-5" }).toOption = none :=
  c10_nonnegative_balances_preflight _ _
    (Or.inr (Or.inr (Or.inr
      ⟨-5, by
        rw [show ({ sampleForm with saldo_cigam := "-5" } : FormData).saldo_cigam = "-5" from rfl,
          parseFloat_neg_nat "-5" 5 (by decide)]
        norm_num,
        by norm_num⟩)))


/-- **C9**: `houveMudanca` reads only the six monitored fields (both
balances, description, unit, status, NCM) — two forms agreeing on them
have the same change flag, so the unmonitored fields (group, subgroup,
item type, product type, observations) never enable submission — and
when every monitored field equals the product's current value the submit
button stays disabled: the update mutation is never invoked. -/
theorem c9_submit_requires_monitored_change (pending : Bool) (p : SaldoItem) (f g : FormData) :
    (monitoredEq f g → houveMudanca p f = houveMudanca p g)
    ∧ (monitoredUnchanged p f → submitEnabled pending p f = false) := by
  constructor
  · rintro ⟨h1, h2, h3, h4, h5, h6⟩
    simp only [houveMudanca, h1, h2, h3, h4, h5, h6]
  · rintro ⟨h1, h2, h3, h4, h5, h6⟩
    have e1 : jsNumNe f.saldo_siagri p.saldo_siagri = false := by
      simp [jsNumNe, h1]
    have e2 : jsNumNe f.saldo_cigam p.saldo_cigam = false := by
      simp [jsNumNe, h2]
    simp [submitEnabled, houveMudanca, e1, e2, h3, h4, h5, h6]

/-- **C9 witness**: at the concrete unchanged form the flag computation
agrees with itself under monitored-field agreement, and the submit button
is disabled even though the unmonitored observations field was edited. -/
theorem c9_submit_requires_monitored_change_witness :
    houveMudanca sampleProduct unchangedForm
      = houveMudanca sampleProduct { unchangedForm with observacoes := "" }
    ∧ submitEnabled false sampleProduct unchangedForm = false :=
  ⟨(c9_submit_requires_monitored_change false sampleProduct unchangedForm
      { unchangedForm with observacoes := "" }).1 ⟨rfl, rfl, rfl, rfl, rfl, rfl⟩,
   (c9_submit_requires_monitored_change false sampleProduct unchangedForm unchangedForm).2
     ⟨(by
        rw [show unchangedForm.saldo_siagri = "100" from rfl,
          parseFloat_nat "100" 100 (by decide)]
        norm_num [sampleProduct]),
      (by
        rw [show unchangedForm.saldo_cigam = "95" from rfl,
          parseFloat_nat "95" 95 (by decide)]
        norm_num [sampleProduct]),
      rfl, rfl, rfl, rfl⟩⟩

/-- **C2 counterexample**: the aggregator's divergent count is not the
number of rows with nonzero difference: a single Active row with balances
100 vs 95 (difference 5) is counted by the claim's predicate but not by
the code, which counts rows whose status field is `'I'`. -/
theorem c2_stats_counterexample :
    (computeStats [divergentActiveItem]).divergentes ≠
      ([divergentActiveItem].filter
          (fun i : SaldoItem => decide (i.saldo_siagri - i.saldo_cigam ≠ 0))).length := by
  have hb : (StatusSaldo.A == StatusSaldo.I) = false := by decide
  have hd : decide ((100 : ℚ) - 95 ≠ 0) = true := by
    rw [decide_eq_true_eq]
    norm_num
  simp [computeStats, divergentActiveItem, List.filter, hb, hd]

/-- **C2 (amended)**: the aggregator's counts are a pure function of the
received item list, but the divergent and ok counters count the status
field (`'I'` / `'A'`, so they partition the page), and the only-in
counters are determined by the numeric balances (`> 0` on one side and
`= 0` on the other) — the rows carry no separate presence signal. -/
theorem c2_stats_amended (items : List SaldoItem) :
    (computeStats items).total = items.length
    ∧ (computeStats items).divergentes = items.countP (fun i => i.status == StatusSaldo.I)
    ∧ (computeStats items).ok = items.countP (fun i => i.status == StatusSaldo.A)
    ∧ (computeStats items).divergentes + (computeStats items).ok = items.length
    ∧ (computeStats items).apenas_siagri
        = items.countP (fun i => decide (0 < i.saldo_siagri ∧ i.saldo_cigam = 0))
    ∧ (computeStats items).apenas_cigam
        = items.countP (fun i => decide (0 < i.saldo_cigam ∧ i.saldo_siagri = 0)) := by
  refine ⟨rfl, ?_, ?_, ?_, ?_, ?_⟩
  · simp [computeStats, List.countP_eq_length_filter]
  · simp [computeStats, List.countP_eq_length_filter]
  · exact filter_status_partition items
  · simp [computeStats, List.countP_eq_length_filter, Bool.decide_and]
  · simp [computeStats, List.countP_eq_length_filter, Bool.decide_and]

/-- **C4**: the three filter flags are applied as a conjunction over the
classified rows: each set flag keeps exactly the rows satisfying its
predicate, an unset flag imposes no constraint, and setting all three
flags keeps exactly the rows kept by each flag individually. -/
theorem c4_filters_conjunction (fl : FiltrosFlags) (rows : List ComparisonRow)
    (r : ComparisonRow) :
    (r ∈ applyFlags fl rows ↔ r ∈ rows ∧
        (fl.apenas_divergentes = true → r.diferenca_saldo ≠ 0) ∧
        (fl.saldos_positivos_siagri = true → 0 < r.saldo_siagri) ∧
        (fl.saldos_positivos_cigam = true → 0 < r.saldo_cigam))
    ∧ applyFlags ⟨false, false, false⟩ rows = rows
    ∧ (r ∈ applyFlags ⟨true, true, true⟩ rows ↔
        r ∈ applyFlags ⟨true, false, false⟩ rows ∧
        r ∈ applyFlags ⟨false, true, false⟩ rows ∧
        r ∈ applyFlags ⟨false, false, true⟩ rows) := by
  refine ⟨mem_applyFlags fl rows r, ?_, ?_⟩
  · simp [applyFlags]
  · simp only [mem_applyFlags]
    simp
    tauto

/-- **C4 witness**: concrete checks of the conjunction semantics on a
two-row set with one divergent row. -/
theorem c4_filters_conjunction_witness :
    ({ empresa := 1, grupo := 80, material := "A1", descricao := "A1",
        status := StatusSaldo.A, saldo_siagri := 10000, saldo_cigam := 5000,
        diferenca_saldo := 5000 } : ComparisonRow) ∈
      applyFlags ⟨true, true, true⟩
        [{ empresa := 1, grupo := 80, material := "A1", descricao := "A1",
           status := StatusSaldo.A, saldo_siagri := 10000, saldo_cigam := 5000,
           diferenca_saldo := 5000 }] :=
  ((c4_filters_conjunction ⟨true, true, true⟩ _ _).1).mpr
    (by refine ⟨by simp, ?_, ?_, ?_⟩ <;> intro h <;> decide)


/-- **C5**: the pagination metadata's `total` is the size of the
classified, filtered set — not of the unfiltered union — and it does not
depend on the requested page index or page size; `pages` is derived from
it exactly as the frontend's manual page count is. -/
theorem c5_pagination_total (rows : List ComparisonRow) (fl : FiltrosFlags)
    (page size page2 size2 : ℕ) :
    (paginate (applyFlags fl rows) page size).total = (applyFlags fl rows).length
    ∧ (paginate (applyFlags fl rows) page size).total
        = (paginate (applyFlags fl rows) page2 size2).total
    ∧ (paginate (applyFlags fl rows) page size).total
        = rows.countP (fun r =>
            (!fl.apenas_divergentes || decide (r.diferenca_saldo ≠ 0)) &&
            (!fl.saldos_positivos_siagri || decide (0 < r.saldo_siagri)) &&
            (!fl.saldos_positivos_cigam || decide (0 < r.saldo_cigam)))
    ∧ (paginate (applyFlags fl rows) page size).pages
        = pageCount (paginate (applyFlags fl rows) page size).total size := by
  refine ⟨rfl, rfl, ?_, rfl⟩
  simp [paginate, applyFlags, List.countP_eq_length_filter]

/-- **C1**: at the NCM test report's failing input the endpoint raises no
pre-flight `ValidationError`, issues the PRODSERV write, and that write
fails only at the database layer with `ORA-12899 (actual: 8, maximum:
1)` — contradicting the claimed pre-flight rejection with no write. -/
theorem c1_clas_psv_oversize_reaches_write :
    (updateMaterialEndpoint ncmTestUpdate).preflight = none
    ∧ 0 < (updateMaterialEndpoint ncmTestUpdate).writesIssued
    ∧ (updateMaterialEndpoint ncmTestUpdate).firstResult
        = some (WriteResult.ora12899 "CLAS_PSV" 8 1) := by
  refine ⟨rfl, Nat.one_pos, ?_⟩
  decide

lemma c8Form_ok :
    handleSubmit c8Product c8Form = Except.ok (buildUpdateData c8Product c8Form) := by
  refine handleSubmit_ok_of _ _ ?_ ?_ ?_ ?_ ?_
  · exact saldoInvalido_eq_false _ 10 (by decide)
  · exact saldoInvalido_eq_false _ 5 (by decide)
  · decide
  · decide
  · decide

/-- **C8 counterexample**: an accepted attribute update whose payload has
`clas_psv = undefined` still rewrites the `CLAS_PSV` column: the
documented PRODSERV UPDATE binds the (null) parameter unconditionally, so
the row's stored classification `'P'` is overwritten with NULL — the
column is not left unchanged. -/
theorem c8_clas_psv_counterexample :
    (handleSubmit c8Product c8Form).toOption = some (buildUpdateData c8Product c8Form)
    ∧ (buildUpdateData c8Product c8Form).clas_psv = none
    ∧ prodservRow8309.clas_psv = some "P"
    ∧ (prodservUpdateRow c8Product.material
        (toMaterialUpdate (buildUpdateData c8Product c8Form)) prodservRow8309).clas_psv
        ≠ prodservRow8309.clas_psv := by
  refine ⟨by rw [c8Form_ok]; rfl, rfl, rfl, ?_⟩
  have hm : prodservRow8309.codi_psv = c8Product.material := rfl
  simp [prodservUpdateRow, toMaterialUpdate, buildUpdateData, hm, prodservRow8309, c8Product]

/-- **C8 (amended)**: every payload built from the edit form carries
`clas_psv = undefined`, so the form never supplies a product
classification; but the backend's documented PRODSERV UPDATE still
assigns the `CLAS_PSV` column from that parameter whenever the product
code matches, so an attribute update sets the column to NULL rather than
leaving it unchanged (rows with a different product code are untouched). -/
theorem c8_clas_psv_never_supplied (p : SaldoItem) (f : FormData) (d : AtualizarMaterial)
    (h : handleSubmit p f = Except.ok d) (row : ProdservRow) :
    d.clas_psv = none
    ∧ (prodservUpdateRow p.material (toMaterialUpdate d) row).clas_psv
        = (if row.codi_psv = p.material then none else row.clas_psv) := by
  have hd : d = buildUpdateData p f := handleSubmit_ok p f d h
  subst hd
  refine ⟨rfl, ?_⟩
  unfold prodservUpdateRow toMaterialUpdate
  split_ifs with hm <;> simp [buildUpdateData]

/-- **C8 witness**: the amended statement applied at the concrete
accepted update of product 8309001811. -/
theorem c8_clas_psv_never_supplied_witness :
    (buildUpdateData c8Product c8Form).clas_psv = none
    ∧ (prodservUpdateRow c8Product.material
        (toMaterialUpdate (buildUpdateData c8Product c8Form)) prodservRow8309).clas_psv
        = (if prodservRow8309.codi_psv = c8Product.material then none
           else prodservRow8309.clas_psv) :=
  c8_clas_psv_never_supplied c8Product c8Form (buildUpdateData c8Product c8Form)
    c8Form_ok prodservRow8309


end Saneamento
